import Mathlib

/-!
Shallow embedding of the synchronization core of the `ticket-system-sync`
repository (Rust), together with theorems settling the spec claims about it.

The embedding follows the source files:
* `src/models/zammad.rs` — Zammad webhook payload types and the forward
  engine (`create_ticket` / `update_ticket`).
* `src/models/jira.rs` — Jira-side vocabulary (`JiraPriorityEnum`,
  `JiraStatus`) and `JiraStatus::from_zammad_state`.
* `src/models/api_request.rs` — outbound Jira request builders and
  `convert_zammad_priority_to_jira_priority`.
* `src/models/db.rs` — the SQLite-backed assignment store.
* `src/models/jira_webhook.rs` / `src/models/zammad_api.rs` — the reverse
  direction (Jira webhook → Zammad update request).

Remote HTTP calls are abstracted: the engine model records the outbound
requests it would submit, in order, instead of performing I/O.  Database
connection failures are outside the model; the `Except` results capture the
logical success/failure paths of the SQL statements themselves.
-/

namespace TicketSync

/-- Zammad ticket priority identifiers (`zammad.rs`, enum `ZammadPriorityId`:
`Low = 1`, `Normal = 2`, `High = 3`).  The source enum is closed with exactly
these three values. -/
inductive ZammadPriorityId
  | Low
  | Normal
  | High
deriving DecidableEq, Repr

/-- Wrapper `ZammadPriority { id }` from `zammad.rs`. -/
structure ZammadPriority where
  id : ZammadPriorityId
deriving DecidableEq, Repr

/-- Zammad lifecycle state (`zammad.rs`, enum `ZammadState`): open or closed. -/
inductive ZammadState
  | Open
  | Closed
deriving DecidableEq, Repr

/-- Jira priority vocabulary (`jira.rs`, enum `JiraPriorityEnum`), the target
system's closed 5-value priority domain. -/
inductive JiraPriorityEnum
  | Highest
  | High
  | Medium
  | Low
  | Lowest
deriving DecidableEq, Repr

/-- Jira status vocabulary (`jira.rs`, enum `JiraStatus`). -/
inductive JiraStatus
  | Open
  | Closed
deriving DecidableEq, Repr

/-- Textual label of a `JiraStatus` value, as produced by the serde
`Serialize` derive on the Rust enum (the unit variant name). -/
def JiraStatus.label : JiraStatus → String
  | JiraStatus.Open => "Open"
  | JiraStatus.Closed => "Closed"

/-- Calendar date part of a `chrono::DateTime<Utc>` value.  Only the date is
modelled: the engine reads timestamps solely through the `"%Y-%m-%d"`
format call in `api_request.rs`. -/
structure DateTimeUtc where
  year : Nat
  month : Nat
  day : Nat
deriving DecidableEq, Repr

/-- Left-pad the decimal representation of `n` with zeros to width `w`,
as chrono's `%Y` (width 4) and `%m` / `%d` (width 2) specifiers do. -/
def padZeros (w : Nat) (n : Nat) : String :=
  let s := toString n
  String.mk (List.replicate (w - s.length) '0') ++ s

/-- Model of `due_date.format("%Y-%m-%d").to_string()` in
`JiraCreateIssueRequest::from_zammad_webhook` (`api_request.rs`). -/
def DateTimeUtc.format_ymd (d : DateTimeUtc) : String :=
  padZeros 4 d.year ++ "-" ++ padZeros 2 d.month ++ "-" ++ padZeros 2 d.day

/-- Zammad user (`zammad.rs`, struct `ZammadUser`). -/
structure ZammadUser where
  id : Nat
  email : String
  firstname : String
  lastname : String
deriving DecidableEq, Repr

/-- Zammad ticket (`zammad.rs`, struct `ZammadTicket`). -/
structure ZammadTicket where
  id : Int
  number : String
  title : String
  state : ZammadState
  priority : ZammadPriority
  created_at : DateTimeUtc
  updated_at : DateTimeUtc
  due_date : DateTimeUtc
  created_by : ZammadUser
  owner : ZammadUser
deriving DecidableEq, Repr

/-- Zammad article (`zammad.rs`, struct `ZammadArticle`): the comment or
message attached to the webhook; every field is optional in the source. -/
structure ZammadArticle where
  id : Option Nat
  ticket_id : Option Nat
  body : Option String
  content_type : Option String
  created_at : Option DateTimeUtc
  updated_at : Option DateTimeUtc
  sender : Option String
  «from» : Option String
  «to» : Option String
deriving DecidableEq, Repr

/-- Zammad webhook payload (`zammad.rs`, struct `ZammadWebhook`). -/
structure ZammadWebhook where
  ticket : ZammadTicket
  article : ZammadArticle
deriving DecidableEq, Repr

/-- Jira project reference (`jira.rs`, struct `JiraProject`). -/
structure JiraProject where
  id : Int
deriving DecidableEq, Repr

/-- Jira issue type (`jira.rs`, struct `JiraIssueType`). -/
structure JiraIssueType where
  name : String
deriving DecidableEq, Repr

/-- Jira priority wrapper (`jira.rs`, struct `JiraPriority`). -/
structure JiraPriority where
  name : JiraPriorityEnum
deriving DecidableEq, Repr

/-- Jira issue fields (`jira.rs`, struct `JiraFields`).  The source struct
has exactly these six fields; in particular it carries no status or
lifecycle-state field. -/
structure JiraFields where
  project : JiraProject
  summary : String
  description : String
  issuetype : JiraIssueType
  priority : JiraPriority
  duedate : String
deriving DecidableEq, Repr

/-- Priority translation (`api_request.rs`,
`convert_zammad_priority_to_jira_priority`): the fixed 3-to-5 lookup table. -/
def convert_zammad_priority_to_jira_priority :
    ZammadPriorityId → JiraPriorityEnum
  | ZammadPriorityId.Low => JiraPriorityEnum.Lowest
  | ZammadPriorityId.Normal => JiraPriorityEnum.Medium
  | ZammadPriorityId.High => JiraPriorityEnum.High

/-- State translation used on update paths (`api_request.rs`,
`convert_zammad_state_to_jira_status`). -/
def convert_zammad_state_to_jira_status : ZammadState → JiraStatus
  | ZammadState.Open => JiraStatus.Open
  | ZammadState.Closed => JiraStatus.Closed

/-- State translation (`jira.rs`, `JiraStatus::from_zammad_state`). -/
def JiraStatus.from_zammad_state : ZammadState → JiraStatus
  | ZammadState.Open => JiraStatus.Open
  | ZammadState.Closed => JiraStatus.Closed

/-- Jira create-issue request (`api_request.rs`,
struct `JiraCreateIssueRequest`). -/
structure JiraCreateIssueRequest where
  fields : JiraFields
deriving DecidableEq, Repr

/-- Builder `JiraCreateIssueRequest::from_zammad_webhook` (`api_request.rs`).
The Rust code reads the destination project id from the process-wide
configuration via `get_jira_project()`; here that fixed configuration value
is passed explicitly as `jira_project_id`. -/
def JiraCreateIssueRequest.from_zammad_webhook (jira_project_id : Int)
    (webhook : ZammadWebhook) : JiraCreateIssueRequest :=
  { fields :=
    { project := { id := jira_project_id }
      summary := webhook.ticket.title
      description := webhook.article.body.getD ""
      priority :=
        { name := convert_zammad_priority_to_jira_priority webhook.ticket.priority.id }
      issuetype := { name := "Task" }
      duedate := webhook.ticket.due_date.format_ymd } }

/-- Update-issue payload (`api_request.rs`, struct
`JiraUpdateIssueProperties`): the source struct has exactly this one field. -/
structure JiraUpdateIssueProperties where
  priority : JiraPriority
deriving DecidableEq, Repr

/-- Jira update-issue request (`api_request.rs`,
struct `JiraUpdateIssueRequest`). -/
structure JiraUpdateIssueRequest where
  fields : JiraUpdateIssueProperties
deriving DecidableEq, Repr

/-- Builder `JiraUpdateIssueRequest::from_zammad_webhook`
(`api_request.rs`): carries only the translated priority. -/
def JiraUpdateIssueRequest.from_zammad_webhook (webhook : ZammadWebhook) :
    JiraUpdateIssueRequest :=
  { fields :=
    { priority :=
      { name := convert_zammad_priority_to_jira_priority webhook.ticket.priority.id } } }

/-- Jira add-comment request (`api_request.rs`,
struct `JiraAddCommentRequest`). -/
structure JiraAddCommentRequest where
  body : String
deriving DecidableEq, Repr

/-- Builder `JiraAddCommentRequest::from_zammad_webhook`
(`api_request.rs`): body is the article body, or empty when absent. -/
def JiraAddCommentRequest.from_zammad_webhook (webhook : ZammadWebhook) :
    JiraAddCommentRequest :=
  { body := webhook.article.body.getD "" }

/-- One row of the `assignments` table (`db.rs`, `create_table`):
`id INTEGER PRIMARY KEY AUTOINCREMENT, zammad_id INTEGER, jira_id INTEGER`.
The schema declares no UNIQUE constraint on `zammad_id`, and both data
columns are nullable. -/
structure AssignmentRow where
  id : Int
  zammad_id : Option Int
  jira_id : Option Int
deriving DecidableEq, Repr

/-- State of the assignments table: the rows in rowid (insertion) order,
plus the next AUTOINCREMENT id. -/
structure DB where
  rows : List AssignmentRow
  next_id : Int
deriving DecidableEq, Repr

/-- Logical failure modes of the SQL statements in `db.rs` as surfaced
through sqlx/anyhow: `rowNotFound` is sqlx's error for `fetch_one` on an
empty result set, `nullColumn` is the `try_get` failure on a NULL
`jira_id`.  Connection-level failures are outside the model. -/
inductive DbError
  | rowNotFound
  | nullColumn
deriving DecidableEq, Repr

/-- Freshly created table (`db.rs`, `create_table`); SQLite AUTOINCREMENT
ids start at 1. -/
def DB.empty : DB :=
  { rows := [], next_id := 1 }

/-- Model of `DB::create_assignment_from_zammad` (`db.rs`): a plain
`INSERT INTO assignments (zammad_id) VALUES (?)`.  Because the schema has
no UNIQUE constraint on `zammad_id`, the INSERT succeeds unconditionally
and simply appends a row with a NULL `jira_id`. -/
def DB.create_assignment_from_zammad (db : DB) (zammad_id : Int) :
    Except DbError DB :=
  Except.ok
    { rows := db.rows ++ [{ id := db.next_id, zammad_id := some zammad_id, jira_id := none }]
      next_id := db.next_id + 1 }

/-- Model of `DB::add_jira_id_to_assignment` (`db.rs`):
`UPDATE assignments SET jira_id = (?) WHERE zammad_id = (?)`.  The UPDATE
affects every matching row (zero or more) and reports success either way;
the Rust code never inspects the affected-row count. -/
def DB.add_jira_id_to_assignment (db : DB) (jira_id zammad_id : Int) :
    Except DbError DB :=
  Except.ok
    { rows := db.rows.map fun r =>
        if r.zammad_id = some zammad_id then { r with jira_id := some jira_id } else r
      next_id := db.next_id }

/-- Model of `DB::get_jira_id_by_zammad_id` (`db.rs`):
`SELECT * FROM assignments WHERE zammad_id = ?` with `fetch_one` (the first
matching row in rowid order; error when none) followed by
`try_get("jira_id")` (error when the column is NULL). -/
def DB.get_jira_id_by_zammad_id (db : DB) (zammad_id : Int) :
    Except DbError Int :=
  match db.rows.find? (fun r => r.zammad_id == some zammad_id) with
  | none => Except.error DbError.rowNotFound
  | some r =>
    match r.jira_id with
    | none => Except.error DbError.nullColumn
    | some j => Except.ok j

/-- Outbound Jira call recorded by the engine model, in submission order. -/
inductive JiraCall
  | addComment (jira_issue_id : Int) (req : JiraAddCommentRequest)
  | updateIssue (jira_issue_id : Int) (req : JiraUpdateIssueRequest)
deriving DecidableEq, Repr

/-- Routing-state failure of the update path.  The Rust `update_ticket`
propagates the lookup failure of `get_jira_id_by_zammad_id` (missing row,
or a row whose `jira_id` is still NULL); the spec names this condition
`NotYetLinked`. -/
inductive SyncError
  | notYetLinked
deriving DecidableEq, Repr

/-- Model of `update_ticket` (`zammad.rs`): resolve the Jira issue id for
the ticket, then, when the article body is present (`is_some()`), submit an
add-comment request, then always submit the priority update request.
Returns the failure (if any) together with the outbound calls made. -/
def update_ticket (db : DB) (payload : ZammadWebhook) :
    Option SyncError × List JiraCall :=
  match db.get_jira_id_by_zammad_id payload.ticket.id with
  | Except.error _ => (some SyncError.notYetLinked, [])
  | Except.ok jira_issue_id =>
    (none,
      (if payload.article.body.isSome then
        [JiraCall.addComment jira_issue_id
          (JiraAddCommentRequest.from_zammad_webhook payload)]
      else []) ++
      [JiraCall.updateIssue jira_issue_id
        (JiraUpdateIssueRequest.from_zammad_webhook payload)])

/-- Jira webhook user (`jira_webhook.rs`, struct `JiraWebhookUser`). -/
structure JiraWebhookUser where
  accountId : String
  displayName : String
  active : Bool
  timeZone : String
  accountType : String
deriving DecidableEq, Repr

/-- Jira webhook project (`jira_webhook.rs`, struct `JiraWebhookProject`). -/
structure JiraWebhookProject where
  id : Int
  key : String
  name : String
  projectTypeKey : String
deriving DecidableEq, Repr

/-- Jira webhook issue fields (`jira_webhook.rs`,
struct `JiraWebhookIssueFields`). -/
structure JiraWebhookIssueFields where
  summary : String
  project : JiraWebhookProject
deriving DecidableEq, Repr

/-- Jira webhook issue (`jira_webhook.rs`, struct `JiraWebhookIssue`). -/
structure JiraWebhookIssue where
  id : Int
  key : String
  fields : JiraWebhookIssueFields
deriving DecidableEq, Repr

/-- Jira webhook comment (`jira_webhook.rs`, struct `JiraWebhookComment`). -/
structure JiraWebhookComment where
  id : Int
  body : String
  created : DateTimeUtc
  updated : DateTimeUtc
  author : JiraWebhookUser
  issue : JiraWebhookIssue
deriving DecidableEq, Repr

/-- Jira webhook changelog item (`jira_webhook.rs`,
struct `JiraWebhookChangelogItem`). -/
structure JiraWebhookChangelogItem where
  field : String
  fieldtype : String
  fieldId : String
  «from» : String
  fromString : String
  «to» : String
  toString : String
deriving DecidableEq, Repr

/-- Jira webhook changelog (`jira_webhook.rs`,
struct `JiraWebhookChangelog`). -/
structure JiraWebhookChangelog where
  id : Int
  items : List JiraWebhookChangelogItem
deriving DecidableEq, Repr

/-- Jira webhook payload (`jira_webhook.rs`, struct `JiraWebhook`). -/
structure JiraWebhook where
  jira_webhook_comment : Option JiraWebhookComment
  jira_webhook_issue : Option JiraWebhookIssue
  jira_webhook_changelog : Option JiraWebhookChangelog
  jira_webhook_user : Option JiraWebhookUser
deriving DecidableEq, Repr

/-- ASCII model of Rust's `str::to_lowercase()`, applied in
`ZammadUpdateTicketRequest::from_jira_webhook` before comparing against the
all-ASCII label sets. -/
def lowerAscii (s : String) : String :=
  String.mk (s.data.map Char.toLower)

/-- Status arm of the changelog scan (`zammad_api.rs`, lines 31-35 of
`from_jira_webhook`): a lowercased value of "done", "closed" or "resolved"
maps to the closed state, anything else to open.  This is the
`targetChangeToSourceState` direction of the field translator. -/
def jira_status_string_to_zammad_state (s : String) : ZammadState :=
  if lowerAscii s = "done" ∨ lowerAscii s = "closed" ∨ lowerAscii s = "resolved" then
    ZammadState.Closed
  else
    ZammadState.Open

/-- Priority arm of the changelog scan (`zammad_api.rs`, lines 37-43 of
`from_jira_webhook`). -/
def jira_priority_string_to_zammad_priority_id (s : String) : ZammadPriorityId :=
  if lowerAscii s = "highest" ∨ lowerAscii s = "blocker" then ZammadPriorityId.High
  else if lowerAscii s = "high" then ZammadPriorityId.High
  else if lowerAscii s = "medium" then ZammadPriorityId.Normal
  else if lowerAscii s = "low" ∨ lowerAscii s = "lowest" then ZammadPriorityId.Low
  else ZammadPriorityId.Normal

/-- One step of the changelog loop in `from_jira_webhook` (`zammad_api.rs`):
a "status" item overwrites the state, a "priority" item overwrites the
priority, any other field is skipped. -/
def applyChangelogItem (acc : ZammadState × ZammadPriority)
    (item : JiraWebhookChangelogItem) : ZammadState × ZammadPriority :=
  if item.field = "status" then
    (jira_status_string_to_zammad_state item.toString, acc.2)
  else if item.field = "priority" then
    (acc.1, { id := jira_priority_string_to_zammad_priority_id item.toString })
  else acc

/-- Zammad update-ticket request (`zammad_api.rs`,
struct `ZammadUpdateTicketRequest`). -/
structure ZammadUpdateTicketRequest where
  title : String
  state : ZammadState
  priority : ZammadPriority
deriving DecidableEq, Repr

/-- Builder `ZammadUpdateTicketRequest::from_jira_webhook`
(`zammad_api.rs`): state and priority start at open / normal, the changelog
items are scanned in payload order with later matching entries overwriting
earlier ones, and the title is the issue summary (empty when the webhook
carries no issue). -/
def ZammadUpdateTicketRequest.from_jira_webhook (webhook : JiraWebhook) :
    ZammadUpdateTicketRequest :=
  let init : ZammadState × ZammadPriority :=
    (ZammadState.Open, { id := ZammadPriorityId.Normal })
  let sp : ZammadState × ZammadPriority :=
    match webhook.jira_webhook_changelog with
    | some changelog => changelog.items.foldl applyChangelogItem init
    | none => init
  { title := (webhook.jira_webhook_issue.map fun issue => issue.fields.summary).getD ""
    state := sp.1
    priority := sp.2 }

/-! Helper notions used to state and prove the claims. -/

/-- Last element of a list satisfying `p`, scanning in payload order:
a later match overrides an earlier one. -/
def lastMatching {α : Type} (p : α → Prop) [DecidablePred p] : List α → Option α
  | [] => none
  | x :: xs =>
    match lastMatching p xs with
    | some e => some e
    | none => if p x then some x else none

/-- Mapping a function that fixes every element of a list leaves the list
unchanged. -/
theorem list_map_self {α : Type} (f : α → α) :
    ∀ l : List α, (∀ a ∈ l, f a = a) → l.map f = l := by
  intro l h
  induction l with
  | nil => rfl
  | cons x xs ih =>
    rw [List.map_cons, h x (List.mem_cons_self x xs),
      ih fun a ha => h a (List.mem_cons_of_mem x ha)]

/-- A list with no element satisfying `p` has no last match. -/
theorem lastMatching_eq_none {α : Type} (p : α → Prop) [DecidablePred p] :
    ∀ l : List α, (∀ x ∈ l, ¬ p x) → lastMatching p l = none := by
  intro l h
  induction l with
  | nil => rfl
  | cons x xs ih =>
    have hx : ¬ p x := h x (List.mem_cons_self x xs)
    simp [lastMatching, ih fun a ha => h a (List.mem_cons_of_mem x ha), hx]

/-- The state component of the changelog fold equals the translation of the
last "status" item, or the initial state when there is none. -/
theorem foldl_applyChangelogItem_fst (items : List JiraWebhookChangelogItem) :
    ∀ sp : ZammadState × ZammadPriority,
      (items.foldl applyChangelogItem sp).1 =
        match lastMatching (fun i => i.field = "status") items with
        | some e => jira_status_string_to_zammad_state e.toString
        | none => sp.1 := by
  induction items with
  | nil => intro sp; rfl
  | cons i rest ih =>
    intro sp
    rw [List.foldl_cons, ih]
    cases h : lastMatching (fun i : JiraWebhookChangelogItem => i.field = "status") rest with
    | some e => simp [lastMatching, h]
    | none =>
      simp only [lastMatching, h]
      by_cases hs : i.field = "status"
      · simp [applyChangelogItem, hs]
      · by_cases hp : i.field = "priority"
        · simp [applyChangelogItem, hs, hp]
        · simp [applyChangelogItem, hs, hp]

/-- The priority component of the changelog fold equals the translation of
the last "priority" item, or the initial priority when there is none. -/
theorem foldl_applyChangelogItem_snd (items : List JiraWebhookChangelogItem) :
    ∀ sp : ZammadState × ZammadPriority,
      (items.foldl applyChangelogItem sp).2 =
        match lastMatching (fun i => i.field = "priority") items with
        | some e => { id := jira_priority_string_to_zammad_priority_id e.toString }
        | none => sp.2 := by
  induction items with
  | nil => intro sp; rfl
  | cons i rest ih =>
    intro sp
    rw [List.foldl_cons, ih]
    cases h : lastMatching (fun i : JiraWebhookChangelogItem => i.field = "priority") rest with
    | some e => simp [lastMatching, h]
    | none =>
      simp only [lastMatching, h]
      by_cases hs : i.field = "status"
      · have hp : i.field ≠ "priority" := by rw [hs]; decide
        simp [applyChangelogItem, hs, hp]
      · by_cases hp : i.field = "priority"
        · simp [applyChangelogItem, hs, hp]
        · simp [applyChangelogItem, hs, hp]

/-! Concrete sample payloads shared by several witnesses. -/

/-- Sample Zammad user for concrete webhook payloads. -/
def sampleUser : ZammadUser :=
  { id := 1, email := "ada@example.com", firstname := "Ada", lastname := "Lovelace" }

/-- Concrete Zammad webhook with the given ticket id, title, state,
priority, due date and optional article body. -/
def mkZammadWebhook (ticket_id : Int) (title : String) (state : ZammadState)
    (prio : ZammadPriorityId) (due : DateTimeUtc) (body : Option String) :
    ZammadWebhook :=
  { ticket :=
    { id := ticket_id
      number := "45003"
      title := title
      state := state
      priority := { id := prio }
      created_at := { year := 2024, month := 1, day := 1 }
      updated_at := { year := 2024, month := 1, day := 2 }
      due_date := due
      created_by := sampleUser
      owner := sampleUser }
    article :=
    { id := some 9
      ticket_id := some 1
      body := body
      content_type := some "text/plain"
      created_at := none
      updated_at := none
      sender := some "Agent"
      «from» := none
      «to» := none } }

/-- Concrete Jira changelog item changing `fieldName` to `toStr`. -/
def mkChangeItem (fieldName toStr : String) : JiraWebhookChangelogItem :=
  { field := fieldName
    fieldtype := "jira"
    fieldId := "f1"
    «from» := ""
    fromString := ""
    «to» := ""
    toString := toStr }

/-- Concrete Jira webhook issue with summary "Synced summary". -/
def sampleJiraIssue : JiraWebhookIssue :=
  { id := 501
    key := "PRJ-1"
    fields :=
    { summary := "Synced summary"
      project := { id := 10, key := "PRJ", name := "Project", projectTypeKey := "software" } } }

/-- Concrete Jira webhook from an optional issue and optional changelog
items. -/
def mkJiraWebhook (issue : Option JiraWebhookIssue)
    (items : Option (List JiraWebhookChangelogItem)) : JiraWebhook :=
  { jira_webhook_comment := none
    jira_webhook_issue := issue
    jira_webhook_changelog := items.map fun l => { id := 900, items := l }
    jira_webhook_user := none }

/-! Claim theorems. -/

/-- C1: the claim states that calling the pending-assignment creation twice
for the same source ticket id yields exactly one success and one
DuplicateSourceTicket failure, so that at most one Assignment row exists per
source ticket id.  Evaluating the embedded `create_assignment_from_zammad`
at the failing input (fresh table, ticket id 7, two consecutive calls) shows
that both calls succeed and two rows with `zammad_id = 7` remain: the
`assignments` schema declares no UNIQUE constraint on `zammad_id` and the
INSERT never fails on a duplicate. -/
theorem c1_create_assignment_twice_both_succeed :
    DB.empty.create_assignment_from_zammad 7 =
      Except.ok (DB.mk [AssignmentRow.mk 1 (some 7) none] 2) ∧
    (DB.mk [AssignmentRow.mk 1 (some 7) none] 2).create_assignment_from_zammad 7 =
      Except.ok (DB.mk [AssignmentRow.mk 1 (some 7) none, AssignmentRow.mk 2 (some 7) none] 3) ∧
    ((DB.mk [AssignmentRow.mk 1 (some 7) none, AssignmentRow.mk 2 (some 7) none] 3).rows.filter
        (fun r => r.zammad_id == some 7)).length = 2 :=
  ⟨rfl, rfl, rfl⟩

/-- C2: the priority translation is total and deterministic on the closed
3-value Zammad domain, maps Low to Lowest, Normal to Medium and High to
High, always lands in the 5-value Jira domain, and repeated calls agree. -/
theorem c2_priority_translation_fixed_table :
    convert_zammad_priority_to_jira_priority ZammadPriorityId.Low = JiraPriorityEnum.Lowest ∧
    convert_zammad_priority_to_jira_priority ZammadPriorityId.Normal = JiraPriorityEnum.Medium ∧
    convert_zammad_priority_to_jira_priority ZammadPriorityId.High = JiraPriorityEnum.High ∧
    (∀ p : ZammadPriorityId,
      convert_zammad_priority_to_jira_priority p ∈
        [JiraPriorityEnum.Highest, JiraPriorityEnum.High, JiraPriorityEnum.Medium,
         JiraPriorityEnum.Low, JiraPriorityEnum.Lowest]) ∧
    (∀ p : ZammadPriorityId,
      convert_zammad_priority_to_jira_priority p =
        convert_zammad_priority_to_jira_priority p) := by
  refine ⟨rfl, rfl, rfl, ?_, fun p => rfl⟩
  intro p
  cases p <;> decide

/-- C3: the built create-issue request copies the ticket title into the
summary, uses the article body (empty when absent) as description, the
translated priority, the due date formatted YYYY-MM-DD, and the fixed
configured project id, never anything from the payload; `JiraFields`
consists of exactly its six fields (project, summary, description,
issuetype, priority, duedate) — there is no status field.  Concretely, a
ticket with priority High and due date 2024-03-01 yields Jira priority High
and the due date string "2024-03-01". -/
theorem c3_create_issue_request_fields :
    (∀ (jira_project_id : Int) (w : ZammadWebhook),
      (JiraCreateIssueRequest.from_zammad_webhook jira_project_id w).fields.summary =
        w.ticket.title ∧
      (JiraCreateIssueRequest.from_zammad_webhook jira_project_id w).fields.description =
        w.article.body.getD "" ∧
      (JiraCreateIssueRequest.from_zammad_webhook jira_project_id w).fields.priority.name =
        convert_zammad_priority_to_jira_priority w.ticket.priority.id ∧
      (JiraCreateIssueRequest.from_zammad_webhook jira_project_id w).fields.duedate =
        w.ticket.due_date.format_ymd ∧
      (JiraCreateIssueRequest.from_zammad_webhook jira_project_id w).fields.project.id =
        jira_project_id ∧
      (JiraCreateIssueRequest.from_zammad_webhook jira_project_id w).fields.issuetype.name =
        "Task") ∧
    (∀ f : JiraFields,
      f = JiraFields.mk f.project f.summary f.description f.issuetype f.priority f.duedate) ∧
    (JiraCreateIssueRequest.from_zammad_webhook 10
        (mkZammadWebhook 100 "T-100" ZammadState.Open ZammadPriorityId.High
          (DateTimeUtc.mk 2024 3 1) none)).fields.priority.name = JiraPriorityEnum.High ∧
    (JiraCreateIssueRequest.from_zammad_webhook 10
        (mkZammadWebhook 100 "T-100" ZammadState.Open ZammadPriorityId.High
          (DateTimeUtc.mk 2024 3 1) none)).fields.duedate = "2024-03-01" := by
  refine ⟨fun pid w => ⟨rfl, rfl, rfl, rfl, rfl, rfl⟩, fun f => rfl, rfl, ?_⟩
  decide

/-- C4: the claim (matching the source comment "We want to add a comment to
the Jira issue if the article body is not empty") states that an add-comment
request is submitted if and only if the event carries a non-empty comment
body.  Evaluating the embedded `update_ticket` at the failing input (linked
ticket 1 with Jira issue 7, article body present but empty) shows the code
submits an add-comment call with empty body anyway: the guard tests only
`body.is_some()`, not non-emptiness. -/
theorem c4_empty_body_still_submits_comment :
    update_ticket (DB.mk [AssignmentRow.mk 1 (some 1) (some 7)] 2)
        (mkZammadWebhook 1 "T-100" ZammadState.Open ZammadPriorityId.Normal
          (DateTimeUtc.mk 2024 3 1) (some "")) =
      (none,
        [JiraCall.addComment 7 (JiraAddCommentRequest.mk ""),
         JiraCall.updateIssue 7
           (JiraUpdateIssueRequest.mk
             (JiraUpdateIssueProperties.mk (JiraPriority.mk JiraPriorityEnum.Medium)))]) :=
  rfl

/-- C5: translating a Zammad state to the Jira vocabulary and the resulting
textual Jira label back through the reverse translation yields the original
state, for both open and closed. -/
theorem c5_state_round_trip :
    ∀ z : ZammadState,
      jira_status_string_to_zammad_state (JiraStatus.from_zammad_state z).label = z := by
  intro z
  cases z <;> decide

/-- C6: the reverse state translation is total over all strings, and every
value whose lowercase form is none of the recognized closed-state labels
("done", "closed", "resolved") maps to the open state. -/
theorem c6_unrecognized_status_maps_to_open :
    ∀ s : String,
      lowerAscii s ≠ "done" → lowerAscii s ≠ "closed" → lowerAscii s ≠ "resolved" →
      jira_status_string_to_zammad_state s = ZammadState.Open := by
  intro s h1 h2 h3
  simp [jira_status_string_to_zammad_state, h1, h2, h3]

/-- C6 witness: the free-text status "In Progress" is not a recognized
closed-state label and maps to open. -/
theorem c6_unrecognized_status_maps_to_open_witness :
    jira_status_string_to_zammad_state "In Progress" = ZammadState.Open :=
  c6_unrecognized_status_maps_to_open "In Progress" (by decide) (by decide) (by decide)

/-- C7: an "updated" event for a source ticket with no Assignment row fails
with the NotYetLinked routing-state error and submits zero outbound Jira
calls. -/
theorem c7_update_without_assignment_fails :
    ∀ (db : DB) (w : ZammadWebhook),
      (∀ r ∈ db.rows, r.zammad_id ≠ some w.ticket.id) →
      update_ticket db w = (some SyncError.notYetLinked, []) := by
  intro db w h
  have hf : db.rows.find? (fun r => r.zammad_id == some w.ticket.id) = none := by
    rw [List.find?_eq_none]
    intro x hx
    simpa using h x hx
  simp [update_ticket, DB.get_jira_id_by_zammad_id, hf]

/-- C7 witness: on the empty store, an update for ticket 1 fails with
NotYetLinked and makes no remote calls. -/
theorem c7_update_without_assignment_fails_witness :
    update_ticket DB.empty
        (mkZammadWebhook 1 "T-1" ZammadState.Open ZammadPriorityId.Normal
          (DateTimeUtc.mk 2024 1 2) none) =
      (some SyncError.notYetLinked, []) :=
  c7_update_without_assignment_fails DB.empty _ (by decide)

/-- C8 counterexample: the claim states `add_jira_id_to_assignment` fails
with NotFound when no Assignment exists for the source ticket id; on the
empty store the call nevertheless succeeds (the UPDATE touches zero rows
and reports success). -/
theorem c8_attach_without_assignment_succeeds :
    DB.empty.add_jira_id_to_assignment 5 1 = Except.ok DB.empty :=
  rfl

/-- C8 amended: `add_jira_id_to_assignment` always succeeds; when no
Assignment row carries the source ticket id, it changes nothing (the UPDATE
matches zero rows), and the Rust code never checks the affected-row count,
so no NotFound failure exists. -/
theorem c8_attach_always_succeeds :
    ∀ (db : DB) (jira_id zammad_id : Int),
      (∃ db2, db.add_jira_id_to_assignment jira_id zammad_id = Except.ok db2) ∧
      ((∀ r ∈ db.rows, r.zammad_id ≠ some zammad_id) →
        db.add_jira_id_to_assignment jira_id zammad_id = Except.ok db) := by
  intro db jid zid
  refine ⟨⟨_, rfl⟩, ?_⟩
  intro h
  unfold DB.add_jira_id_to_assignment
  rw [list_map_self _ db.rows fun r hr => if_neg (h r hr)]

/-- C8 witness: attaching Jira id 5 for source ticket 1 on a store whose
only row is for ticket 9 succeeds and leaves the store unchanged. -/
theorem c8_attach_always_succeeds_witness :
    (DB.mk [AssignmentRow.mk 1 (some 9) none] 2).add_jira_id_to_assignment 5 1 =
      Except.ok (DB.mk [AssignmentRow.mk 1 (some 9) none] 2) :=
  (c8_attach_always_succeeds (DB.mk [AssignmentRow.mk 1 (some 9) none] 2) 5 1).2 (by decide)

/-- C9: the built Zammad update request takes its title from the Jira issue
summary (empty when the webhook has no issue), and for each of the status
and priority fields reflects the last matching changelog entry in payload
order; concretely, a changelog changing status to "Done" and then priority
to "Low" yields the closed state and low priority. -/
theorem c9_update_source_request_last_wins :
    (∀ w : JiraWebhook,
      (ZammadUpdateTicketRequest.from_jira_webhook w).title =
        (w.jira_webhook_issue.map fun issue => issue.fields.summary).getD "") ∧
    (∀ (w : JiraWebhook) (changelog : JiraWebhookChangelog)
        (e : JiraWebhookChangelogItem),
      w.jira_webhook_changelog = some changelog →
      lastMatching (fun i => i.field = "status") changelog.items = some e →
      (ZammadUpdateTicketRequest.from_jira_webhook w).state =
        jira_status_string_to_zammad_state e.toString) ∧
    (∀ (w : JiraWebhook) (changelog : JiraWebhookChangelog)
        (e : JiraWebhookChangelogItem),
      w.jira_webhook_changelog = some changelog →
      lastMatching (fun i => i.field = "priority") changelog.items = some e →
      (ZammadUpdateTicketRequest.from_jira_webhook w).priority =
        ZammadPriority.mk (jira_priority_string_to_zammad_priority_id e.toString)) ∧
    (ZammadUpdateTicketRequest.from_jira_webhook
        (mkJiraWebhook (some sampleJiraIssue)
          (some [mkChangeItem "status" "Done", mkChangeItem "priority" "Low"]))).state =
      ZammadState.Closed ∧
    (ZammadUpdateTicketRequest.from_jira_webhook
        (mkJiraWebhook (some sampleJiraIssue)
          (some [mkChangeItem "status" "Done", mkChangeItem "priority" "Low"]))).priority.id =
      ZammadPriorityId.Low ∧
    (ZammadUpdateTicketRequest.from_jira_webhook
        (mkJiraWebhook (some sampleJiraIssue)
          (some [mkChangeItem "status" "Done", mkChangeItem "priority" "Low"]))).title =
      "Synced summary" := by
  refine ⟨fun w => rfl, ?_, ?_, by decide, by decide, rfl⟩
  · intro w changelog e hcl hlast
    simp only [ZammadUpdateTicketRequest.from_jira_webhook, hcl]
    rw [foldl_applyChangelogItem_fst, hlast]
  · intro w changelog e hcl hlast
    simp only [ZammadUpdateTicketRequest.from_jira_webhook, hcl]
    rw [foldl_applyChangelogItem_snd, hlast]

/-- C9 witness: a one-entry changelog raising the priority to "Highest"
produces a request whose priority is the translated High. -/
theorem c9_update_source_request_last_wins_witness :
    (ZammadUpdateTicketRequest.from_jira_webhook
        (mkJiraWebhook none (some [mkChangeItem "priority" "Highest"]))).priority =
      ZammadPriority.mk (jira_priority_string_to_zammad_priority_id "Highest") :=
  c9_update_source_request_last_wins.2.2.1
    (mkJiraWebhook none (some [mkChangeItem "priority" "Highest"]))
    (JiraWebhookChangelog.mk 900 [mkChangeItem "priority" "Highest"])
    (mkChangeItem "priority" "Highest") rfl (by decide)

/-- C10: with no changelog, or a changelog containing no status and no
priority entries, the built Zammad update request defaults to state open
and priority normal; and with no issue information the title is empty. -/
theorem c10_defaults_without_changelog :
    ∀ w : JiraWebhook,
      (w.jira_webhook_changelog = none →
        (ZammadUpdateTicketRequest.from_jira_webhook w).state = ZammadState.Open ∧
        (ZammadUpdateTicketRequest.from_jira_webhook w).priority =
          ZammadPriority.mk ZammadPriorityId.Normal) ∧
      (∀ changelog : JiraWebhookChangelog,
        w.jira_webhook_changelog = some changelog →
        (∀ i ∈ changelog.items, i.field ≠ "status" ∧ i.field ≠ "priority") →
        (ZammadUpdateTicketRequest.from_jira_webhook w).state = ZammadState.Open ∧
        (ZammadUpdateTicketRequest.from_jira_webhook w).priority =
          ZammadPriority.mk ZammadPriorityId.Normal) ∧
      (w.jira_webhook_issue = none →
        (ZammadUpdateTicketRequest.from_jira_webhook w).title = "") := by
  intro w
  refine ⟨?_, ?_, ?_⟩
  · intro h
    refine ⟨?_, ?_⟩ <;> simp [ZammadUpdateTicketRequest.from_jira_webhook, h]
  · intro changelog hcl h
    have hs : lastMatching (fun i : JiraWebhookChangelogItem => i.field = "status")
        changelog.items = none :=
      lastMatching_eq_none _ changelog.items fun i hi => (h i hi).1
    have hp : lastMatching (fun i : JiraWebhookChangelogItem => i.field = "priority")
        changelog.items = none :=
      lastMatching_eq_none _ changelog.items fun i hi => (h i hi).2
    constructor
    · simp only [ZammadUpdateTicketRequest.from_jira_webhook, hcl]
      rw [foldl_applyChangelogItem_fst, hs]
    · simp only [ZammadUpdateTicketRequest.from_jira_webhook, hcl]
      rw [foldl_applyChangelogItem_snd, hp]
  · intro h
    simp only [ZammadUpdateTicketRequest.from_jira_webhook, h]
    rfl

/-- C10 witness: the all-empty Jira webhook yields the default request:
state open, priority normal, empty title. -/
theorem c10_defaults_without_changelog_witness :
    (ZammadUpdateTicketRequest.from_jira_webhook
        (JiraWebhook.mk none none none none)).state = ZammadState.Open ∧
    (ZammadUpdateTicketRequest.from_jira_webhook
        (JiraWebhook.mk none none none none)).priority =
      ZammadPriority.mk ZammadPriorityId.Normal ∧
    (ZammadUpdateTicketRequest.from_jira_webhook
        (JiraWebhook.mk none none none none)).title = "" :=
  ⟨((c10_defaults_without_changelog (JiraWebhook.mk none none none none)).1 rfl).1,
   ((c10_defaults_without_changelog (JiraWebhook.mk none none none none)).1 rfl).2,
   (c10_defaults_without_changelog (JiraWebhook.mk none none none none)).2.2 rfl⟩

end TicketSync
